import Mathlib

/-!
Shallow embedding of the terminal-emulation core of the `ratty` repository
(`src/pane/terminal.rs`, `src/pane/buffer.rs`, `src/pane/cursor.rs`,
`src/pane/mod.rs`, `src/pane/interface.rs`).

Bytes are modelled as `Nat` (values 0..255), Rust `u16`/`u8 as` casts as
truncating `% 2^16` / `% 2^8` on `Int`, `saturating_sub` as truncated `Nat`
subtraction, and `Vec`/`VecDeque` as `List`.  Fallible Rust functions
(`PaneResult`) are modelled with `Except String`.  Wall-clock metadata
(`Line.timestamp`, `Cursor.blink_state`) is omitted: it is real-time state
with no value-level semantics.
-/

/-- Replace the element at index `i` (no-op when out of range), modelling
`Vec::get_mut(i)` followed by an assignment. -/
def modifyAt {α : Type} : List α → Nat → (α → α) → List α
  | [], _, _ => []
  | x :: r, 0, f => f x :: r
  | x :: r, i + 1, f => x :: modifyAt r i f

/-- Whether an `Except` value is `ok` (Rust `Result::is_ok`). -/
def isOkE {α : Type} : Except String α → Bool
  | .ok _ => true
  | .error _ => false

/-- Incremental check of `std::str::from_utf8` validity (strict UTF-8: no
overlongs, no surrogates, max U+10FFFF). `pending` counts the continuation
bytes still owed; `lo`/`hi` bound the next expected byte (the first
continuation byte of a sequence has a narrowed range, later ones are
0x80..=0xBF). -/
def utf8ValidSM (pending lo hi : Nat) : List Nat → Bool
  | [] => pending = 0
  | b :: rest =>
    if pending = 0 then
      if b ≤ 127 then utf8ValidSM 0 0 0 rest
      else if 194 ≤ b && b ≤ 223 then utf8ValidSM 1 128 191 rest
      else if b = 224 then utf8ValidSM 2 160 191 rest
      else if (225 ≤ b && b ≤ 236) || b = 238 || b = 239 then utf8ValidSM 2 128 191 rest
      else if b = 237 then utf8ValidSM 2 128 159 rest
      else if b = 240 then utf8ValidSM 3 144 191 rest
      else if 241 ≤ b && b ≤ 243 then utf8ValidSM 3 128 191 rest
      else if b = 244 then utf8ValidSM 3 128 143 rest
      else false
    else
      if lo ≤ b && b ≤ hi then utf8ValidSM (pending - 1) 128 191 rest
      else false

/-- `std::str::from_utf8` succeeds exactly when this holds of the bytes. -/
def utf8Valid (l : List Nat) : Bool := utf8ValidSM 0 0 0 l

/-- `str::split(';')` on the byte string (the parser only ever splits ASCII
content, where splitting the bytes and splitting the chars agree). A split of
the empty string yields one empty piece, as in Rust. -/
def splitSemi : List Nat → List (List Nat)
  | [] => [[]]
  | b :: rest =>
    if b = 59 then [] :: splitSemi rest
    else
      match splitSemi rest with
      | h :: t => (b :: h) :: t
      | [] => [[b]]

/-- `str::parse::<i32>`: optional sign, then decimal digits, value within the
i32 range; anything else is a parse failure. -/
def parseI32 (piece : List Nat) : Option Int :=
  match piece with
  | [] => none
  | b :: rest =>
    let signed : Bool × List Nat :=
      if b = 43 then (false, rest)
      else if b = 45 then (true, rest)
      else (false, piece)
    let digits := signed.2
    if digits.isEmpty || !(digits.all fun d => 48 ≤ d && d ≤ 57) then none
    else
      let v : Int := digits.foldl (fun acc d => acc * 10 + (Int.ofNat d - 48)) 0
      let iv : Int := if signed.1 then -v else v
      if -2147483648 ≤ iv ∧ iv ≤ 2147483647 then some iv else none

/-- One field of the CSI parameter list: empty fields and parse failures
default to 0 (`param.parse().unwrap_or(0)`). -/
def parseParamField (piece : List Nat) : Int :=
  if piece.isEmpty then 0 else (parseI32 piece).getD 0

/-- Rust `as u16` truncation of an i32 value. -/
def toU16 (i : Int) : Nat := (i % 65536).toNat

/-- Rust `as u8` truncation of an i32 value. -/
def toU8 (i : Int) : Nat := (i % 256).toNat

/-- The CSI parameter-byte match arm `b'0'..=b'9' | b';'`. -/
def paramByte (b : Nat) : Bool := (48 ≤ b && b ≤ 57) || b = 59

/-- The CSI final-byte match arm `b'A'..=b'Z' | b'a'..=b'z'`. -/
def finalByte (b : Nat) : Bool := (65 ≤ b && b ≤ 90) || (97 ≤ b && b ≤ 122)

/-- Parser state machine states (`ParserStateMachine` in the source). -/
inductive ParserStateMachine
  | ground
  | escape
  | csiEntry
  | csiParam
  | csiIntermediate
  | oscString
deriving DecidableEq

inductive ControlCode
  | bell
  | backspace
  | tab
  | lineFeed
  | carriageReturn
deriving DecidableEq

inductive EscapeSequence
  | index
  | reverseIndex
  | reset
  | saveCursor
  | restoreCursor
deriving DecidableEq

inductive ClearType
  | all
  | toEnd
  | toBeginning
deriving DecidableEq

inductive CsiCommand
  | cursorUp (n : Nat)
  | cursorDown (n : Nat)
  | cursorForward (n : Nat)
  | cursorBack (n : Nat)
  | cursorPosition (row col : Nat)
  | clearScreen (t : ClearType)
  | clearLine (t : ClearType)
  | insertLines (n : Nat)
  | deleteLines (n : Nat)
  | setGraphicsRendition (ps : List Nat)
  | unknown (final : Nat) (ps : List Int)
deriving DecidableEq

inductive OscCommand
  | setTitle (s : List Nat)
  | unknown (bs : List Nat)
deriving DecidableEq

inductive VtSequence
  | character (c : Nat)
  | control (c : ControlCode)
  | escape (e : EscapeSequence)
  | csi (c : CsiCommand)
  | osc (o : OscCommand)
deriving DecidableEq

/-- High-level terminal commands (`VtCommand` in the source). -/
inductive VtCommand
  | printChar (ch : Nat)
  | bell
  | backspace
  | tab
  | lineFeed
  | carriageReturn
  | cursorUp (n : Nat)
  | cursorDown (n : Nat)
  | cursorForward (n : Nat)
  | cursorBack (n : Nat)
  | cursorPosition (row col : Nat)
  | saveCursor
  | restoreCursor
  | clearScreen (t : ClearType)
  | clearLine (t : ClearType)
  | insertLines (n : Nat)
  | deleteLines (n : Nat)
  | setGraphicsRendition (ps : List Nat)
  | reset
  | setMode (ms : List Nat)
  | resetMode (ms : List Nat)
  | decPrivateModeSet (m : Nat)
  | decPrivateModeReset (m : Nat)
  | deviceStatusReport
deriving DecidableEq

/-- VT sequence parser state (`VtParser` in the source). -/
structure VtParser where
  state_machine : ParserStateMachine
  current_sequence : List Nat
  params : List Int
deriving DecidableEq

def VtParser.new : VtParser :=
  { state_machine := .ground, current_sequence := [], params := [] }

/-- `VtParser::parse_parameters`: decode `current_sequence[2..len-1]` as UTF-8
and split on `;`; fails with a parse error on invalid UTF-8. -/
def VtParser.parse_parameters (p : VtParser) : Except String VtParser :=
  if p.current_sequence.length < 3 then .ok p
  else
    let s := (p.current_sequence.drop 2).dropLast
    if utf8Valid s then
      .ok { p with params := if s.isEmpty then [] else (splitSemi s).map parseParamField }
    else
      .error "Invalid UTF-8 in CSI parameters"

/-- `VtParser::build_csi_sequence`: map the final byte and the accumulated
parameters to a CSI command. -/
def VtParser.build_csi_sequence (p : VtParser) (final : Nat) : VtSequence :=
  let params := p.params
  let cmd : CsiCommand :=
    if final = 65 then .cursorUp (toU16 ((params.head?).getD 1))
    else if final = 66 then .cursorDown (toU16 ((params.head?).getD 1))
    else if final = 67 then .cursorForward (toU16 ((params.head?).getD 1))
    else if final = 68 then .cursorBack (toU16 ((params.head?).getD 1))
    else if final = 72 || final = 102 then
      .cursorPosition (toU16 ((params.get? 0).getD 1)) (toU16 ((params.get? 1).getD 1))
    else if final = 74 then
      let param := (params.head?).getD 0
      .clearScreen (if param = 0 then .toEnd else if param = 1 then .toBeginning else .all)
    else if final = 75 then
      let param := (params.head?).getD 0
      .clearLine (if param = 0 then .toEnd else if param = 1 then .toBeginning else .all)
    else if final = 109 then .setGraphicsRendition (params.map toU8)
    else if final = 76 then .insertLines (toU16 ((params.head?).getD 1))
    else if final = 77 then .deleteLines (toU16 ((params.head?).getD 1))
    else .unknown final params
  .csi cmd

def VtParser.process_ground_state (p : VtParser) (b : Nat) :
    Except String (VtParser × Option VtSequence) :=
  if b = 27 then
    .ok ({ p with state_machine := .escape, current_sequence := [27] }, none)
  else if b = 8 then .ok (p, some (.control .backspace))
  else if b = 9 then .ok (p, some (.control .tab))
  else if b = 10 then .ok (p, some (.control .lineFeed))
  else if b = 13 then .ok (p, some (.control .carriageReturn))
  else if b = 7 then .ok (p, some (.control .bell))
  else if 32 ≤ b && b ≤ 126 then .ok (p, some (.character b))
  else if 128 ≤ b && b ≤ 255 then .ok (p, some (.character b))
  else .ok (p, none)

def VtParser.process_escape_state (p : VtParser) (b : Nat) :
    Except String (VtParser × Option VtSequence) :=
  let p1 := { p with current_sequence := p.current_sequence ++ [b] }
  if b = 91 then .ok ({ p1 with state_machine := .csiEntry }, none)
  else if b = 93 then .ok ({ p1 with state_machine := .oscString }, none)
  else if b = 68 then .ok ({ p1 with state_machine := .ground }, some (.escape .index))
  else if b = 77 then .ok ({ p1 with state_machine := .ground }, some (.escape .reverseIndex))
  else if b = 99 then .ok ({ p1 with state_machine := .ground }, some (.escape .reset))
  else if b = 55 then .ok ({ p1 with state_machine := .ground }, some (.escape .saveCursor))
  else if b = 56 then .ok ({ p1 with state_machine := .ground }, some (.escape .restoreCursor))
  else .ok ({ p1 with state_machine := .ground }, none)

def VtParser.process_csi_entry_state (p : VtParser) (b : Nat) :
    Except String (VtParser × Option VtSequence) :=
  let p1 := { p with current_sequence := p.current_sequence ++ [b] }
  if paramByte b then
    match VtParser.parse_parameters { p1 with state_machine := .csiParam } with
    | .ok p2 => .ok (p2, none)
    | .error e => .error e
  else if finalByte b then
    .ok ({ p1 with state_machine := .ground }, some (p1.build_csi_sequence b))
  else
    .ok ({ p1 with state_machine := .ground }, none)

def VtParser.process_csi_param_state (p : VtParser) (b : Nat) :
    Except String (VtParser × Option VtSequence) :=
  let p1 := { p with current_sequence := p.current_sequence ++ [b] }
  if paramByte b then
    match VtParser.parse_parameters p1 with
    | .ok p2 => .ok (p2, none)
    | .error e => .error e
  else if finalByte b then
    .ok ({ p1 with state_machine := .ground }, some (p1.build_csi_sequence b))
  else
    .ok ({ p1 with state_machine := .ground }, none)

def VtParser.process_csi_intermediate_state (p : VtParser) (b : Nat) :
    Except String (VtParser × Option VtSequence) :=
  .ok ({ p with current_sequence := p.current_sequence ++ [b],
                state_machine := .ground }, none)

def VtParser.process_osc_string_state (p : VtParser) (b : Nat) :
    Except String (VtParser × Option VtSequence) :=
  let p1 := { p with current_sequence := p.current_sequence ++ [b] }
  if b = 7 ||
     (decide (2 ≤ p1.current_sequence.length) &&
      p1.current_sequence.getD (p1.current_sequence.length - 2) 0 = 27 && b = 92) then
    .ok ({ p1 with state_machine := .ground }, none)
  else
    .ok (p1, none)

/-- `VtParser::process_byte`. -/
def VtParser.process_byte (p : VtParser) (b : Nat) :
    Except String (VtParser × Option VtSequence) :=
  match p.state_machine with
  | .ground => p.process_ground_state b
  | .escape => p.process_escape_state b
  | .csiEntry => p.process_csi_entry_state b
  | .csiParam => p.process_csi_param_state b
  | .csiIntermediate => p.process_csi_intermediate_state b
  | .oscString => p.process_osc_string_state b

/-- `VtInterpreter::interpret` (the interpreter is stateless: its handler map
is never filled; every arm of the source returns `Ok`, so it is pure). -/
def VtInterpreter.interpret : VtSequence → Option VtCommand
  | .character ch => some (.printChar ch)
  | .control .bell => some .bell
  | .control .backspace => some .backspace
  | .control .tab => some .tab
  | .control .lineFeed => some .lineFeed
  | .control .carriageReturn => some .carriageReturn
  | .escape .index => some (.cursorDown 1)
  | .escape .reverseIndex => some (.cursorUp 1)
  | .escape .reset => some .reset
  | .escape .saveCursor => some .saveCursor
  | .escape .restoreCursor => some .restoreCursor
  | .csi (.cursorUp n) => some (.cursorUp n)
  | .csi (.cursorDown n) => some (.cursorDown n)
  | .csi (.cursorForward n) => some (.cursorForward n)
  | .csi (.cursorBack n) => some (.cursorBack n)
  | .csi (.cursorPosition r c) => some (.cursorPosition r c)
  | .csi (.clearScreen t) => some (.clearScreen t)
  | .csi (.clearLine t) => some (.clearLine t)
  | .csi (.insertLines n) => some (.insertLines n)
  | .csi (.deleteLines n) => some (.deleteLines n)
  | .csi (.setGraphicsRendition ps) => some (.setGraphicsRendition ps)
  | .csi (.unknown _ _) => none
  | .osc _ => none

inductive TerminalMode
  | normal
  | applicationKeypad
  | applicationCursor
deriving DecidableEq

/-- `Terminal`: parser + (stateless) interpreter + mode flag. -/
structure Terminal where
  parser : VtParser
  current_mode : TerminalMode
deriving DecidableEq

def Terminal.new : Terminal := { parser := VtParser.new, current_mode := .normal }

/-- `Terminal::process_byte`. -/
def Terminal.process_byte (t : Terminal) (b : Nat) :
    Except String (Terminal × Option VtCommand) :=
  match t.parser.process_byte b with
  | .error e => .error e
  | .ok (p, none) => .ok ({ t with parser := p }, none)
  | .ok (p, some s) => .ok ({ t with parser := p }, VtInterpreter.interpret s)

/-- `Terminal::process_bytes`: fold `process_byte`, collecting commands in
arrival order. -/
def Terminal.process_bytes (t : Terminal) : List Nat → Except String (Terminal × List VtCommand)
  | [] => .ok (t, [])
  | b :: rest =>
    match t.process_byte b with
    | .error e => .error e
    | .ok (t1, cmd) =>
      match t1.process_bytes rest with
      | .error e => .error e
      | .ok (t2, cmds) =>
        .ok (t2, match cmd with | some c => c :: cmds | none => cmds)

/-- RGB color (`sash::Color`); `Color::from_rgb`. -/
structure Color where
  r : Nat
  g : Nat
  b : Nat
deriving DecidableEq

def Color.from_rgb (r g b : Nat) : Color := { r := r, g := g, b := b }

inductive UnderlineType
  | none
  | single
  | double
  | curly
  | dotted
  | dashed
deriving DecidableEq

inductive BlinkType
  | none
  | slow
  | fast
deriving DecidableEq

structure CellAttributes where
  bold : Bool
  dim : Bool
  italic : Bool
  underline : UnderlineType
  strikethrough : Bool
  reverse : Bool
  blink : BlinkType
  invisible : Bool
deriving DecidableEq

def CellAttributes.default : CellAttributes :=
  { bold := false, dim := false, italic := false, underline := .none,
    strikethrough := false, reverse := false, blink := .none, invisible := false }

/-- One character cell; the character is its Unicode code point. -/
structure Cell where
  character : Nat
  attributes : CellAttributes
  foreground : Color
  background : Color
deriving DecidableEq

def Cell.default : Cell :=
  { character := 32, attributes := CellAttributes.default,
    foreground := Color.from_rgb 255 255 255, background := Color.from_rgb 0 0 0 }

/-- `Cell::is_default`. -/
def Cell.is_default (c : Cell) : Bool :=
  c.character = 32 && c.attributes = CellAttributes.default &&
  c.foreground = Color.from_rgb 255 255 255 && c.background = Color.from_rgb 0 0 0

/-- One line of terminal content (the wall-clock `timestamp` field is
omitted). -/
structure Line where
  cells : List Cell
  wrapped : Bool
  dirty : Bool
deriving DecidableEq

def Line.new (width : Nat) : Line :=
  { cells := List.replicate width Cell.default, wrapped := false, dirty := true }

/-- `Line::resize` (`Vec::resize`: truncate or pad with default cells). -/
def Line.resize (l : Line) (new_width : Nat) : Line :=
  let cells1 :=
    if new_width ≤ l.cells.length then l.cells.take new_width
    else l.cells ++ List.replicate (new_width - l.cells.length) Cell.default
  if new_width = l.cells.length then { l with cells := cells1 }
  else { l with cells := cells1, dirty := true }

/-- `Line::write_char`. -/
def Line.write_char (l : Line) (col ch : Nat) (attrs : CellAttributes) : Line :=
  if col < l.cells.length then
    { l with
      cells := modifyAt l.cells col
        (fun cell => { cell with character := ch, attributes := attrs }),
      dirty := true }
  else l

/-- `Line::clear`. -/
def Line.clear (l : Line) : Line :=
  { l with cells := l.cells.map (fun _ => Cell.default), dirty := true }

/-- `Line::clear_from` (`cells.get_mut(from_col..)` is `None`, hence a no-op,
when `from_col` exceeds the length). -/
def Line.clear_from (l : Line) (from_col : Nat) : Line :=
  if from_col ≤ l.cells.length then
    { l with
      cells := l.cells.take from_col ++ (l.cells.drop from_col).map (fun _ => Cell.default),
      dirty := true }
  else l

/-- `Line::clear_to` (clears columns `0..=to_col`, capped at the length). -/
def Line.clear_to (l : Line) (to_col : Nat) : Line :=
  let end_idx := min (to_col + 1) l.cells.length
  { l with
    cells := (l.cells.take end_idx).map (fun _ => Cell.default) ++ l.cells.drop end_idx,
    dirty := true }

/-- `Line::is_empty`. -/
def Line.is_empty (l : Line) : Bool := l.cells.all Cell.is_default

structure DirtyTracker where
  width : Nat
  height : Nat
  dirty_lines : List Bool
  all_dirty : Bool
deriving DecidableEq

def DirtyTracker.new (width height : Nat) : DirtyTracker :=
  { width := width, height := height,
    dirty_lines := List.replicate height false, all_dirty := true }

def DirtyTracker.mark_cell_dirty (d : DirtyTracker) (row : Nat) : DirtyTracker :=
  { d with dirty_lines := modifyAt d.dirty_lines row (fun _ => true) }

def DirtyTracker.mark_line_dirty (d : DirtyTracker) (row : Nat) : DirtyTracker :=
  { d with dirty_lines := modifyAt d.dirty_lines row (fun _ => true) }

def DirtyTracker.mark_all_dirty (d : DirtyTracker) : DirtyTracker :=
  { d with all_dirty := true, dirty_lines := d.dirty_lines.map (fun _ => true) }

/-- Cursor position with origin-mode flag. -/
structure CursorPosition where
  row : Nat
  col : Nat
  origin_mode : Bool
deriving DecidableEq

def CursorPosition.default : CursorPosition :=
  { row := 0, col := 0, origin_mode := false }

inductive CursorStyle
  | block
  | underline
  | bar
deriving DecidableEq

inductive CursorVisibility
  | visible
  | hidden
  | blinkingBlock
  | blinkingUnderline
  | blinkingBar
deriving DecidableEq

/-- Cursor state (the wall-clock `blink_state` field is omitted). -/
structure Cursor where
  position : CursorPosition
  style : CursorStyle
  visibility : CursorVisibility
  saved_positions : List CursorPosition
deriving DecidableEq

def Cursor.new : Cursor :=
  { position := CursorPosition.default, style := .block,
    visibility := .visible, saved_positions := [] }

/-- Screen buffer of the currently visible content. -/
structure ScreenBuffer where
  lines : List Line
  width : Nat
  height : Nat
  dirty_regions : DirtyTracker
deriving DecidableEq

def ScreenBuffer.new (width height : Nat) : ScreenBuffer :=
  { lines := List.replicate height (Line.new width), width := width,
    height := height, dirty_regions := DirtyTracker.new width height }

def ScreenBuffer.mark_all_dirty (s : ScreenBuffer) : ScreenBuffer :=
  { s with dirty_regions := s.dirty_regions.mark_all_dirty }

/-- `ScreenBuffer::resize`: adjust line count at the bottom, then resize every
line, then rebuild the dirty tracker and mark all dirty. -/
def ScreenBuffer.resize (s : ScreenBuffer) (new_width new_height : Nat) : ScreenBuffer :=
  let lines1 :=
    if s.height < new_height then
      s.lines ++ List.replicate (new_height - s.height) (Line.new new_width)
    else if new_height < s.height then s.lines.take new_height
    else s.lines
  { lines := lines1.map (fun l => l.resize new_width),
    width := new_width, height := new_height,
    dirty_regions := (DirtyTracker.new new_width new_height).mark_all_dirty }

/-- `ScreenBuffer::write_char_at`: errors when the row is out of bounds;
silently drops writes past the right edge. -/
def ScreenBuffer.write_char_at (s : ScreenBuffer) (row col ch : Nat)
    (attrs : CellAttributes) : Except String ScreenBuffer :=
  if s.height ≤ row then .error "InvalidCursorPosition"
  else if col < s.width then
    .ok { s with
          lines := modifyAt s.lines row (fun l => l.write_char col ch attrs),
          dirty_regions := s.dirty_regions.mark_cell_dirty row }
  else .ok s

/-- `Cursor::set_position` (1-based VT coordinates, clamped into bounds; both
branches of the origin-mode conditional are currently identical in the
source). -/
def Cursor.set_position (c : Cursor) (row col : Nat) (screen : ScreenBuffer) : Cursor :=
  let zero_row := row - 1
  let zero_col := col - 1
  let final_row := if c.position.origin_mode then zero_row else zero_row
  { c with position := { c.position with
      row := min final_row (screen.height - 1),
      col := min zero_col (screen.width - 1) } }

/-- `ScreenBuffer::clear_screen`; the cursor is passed `&mut` and is moved
home by the `All` variant. -/
def ScreenBuffer.clear_screen (s : ScreenBuffer) (t : ClearType) (c : Cursor) :
    ScreenBuffer × Cursor :=
  match t with
  | .all =>
    let s1 := { s with lines := s.lines.map Line.clear }
    let c1 := Cursor.set_position c 0 0 s1
    (s1.mark_all_dirty, c1)
  | .toEnd =>
    let r := c.position.row
    let s1 := { s with lines := modifyAt s.lines r (fun l => l.clear_from c.position.col) }
    let s2 := { s1 with
                lines := s1.lines.take (r + 1) ++ (s1.lines.drop (r + 1)).map Line.clear }
    (s2.mark_all_dirty, c)
  | .toBeginning =>
    let r := c.position.row
    let s1 := { s with lines := (s.lines.take r).map Line.clear ++ s.lines.drop r }
    let s2 := { s1 with lines := modifyAt s1.lines r (fun l => l.clear_to c.position.col) }
    (s2.mark_all_dirty, c)

/-- `ScreenBuffer::clear_line`. -/
def ScreenBuffer.clear_line (s : ScreenBuffer) (t : ClearType) (c : Cursor) : ScreenBuffer :=
  let row := c.position.row
  if s.lines.length ≤ row then s
  else
    let f : Line → Line :=
      match t with
      | .all => Line.clear
      | .toEnd => fun l => l.clear_from c.position.col
      | .toBeginning => fun l => l.clear_to c.position.col
    { s with lines := modifyAt s.lines row f,
             dirty_regions := s.dirty_regions.mark_line_dirty row }

/-- `Cursor::move_up`. -/
def Cursor.move_up (c : Cursor) (n : Nat) (screen : ScreenBuffer) : Cursor :=
  let new_row := c.position.row - n
  c.set_position (new_row + 1) (c.position.col + 1) screen

/-- `Cursor::move_down`. -/
def Cursor.move_down (c : Cursor) (n : Nat) (screen : ScreenBuffer) : Cursor :=
  let new_row := min (c.position.row + n) (screen.height - 1)
  c.set_position (new_row + 1) (c.position.col + 1) screen

/-- `Cursor::move_forward`. -/
def Cursor.move_forward (c : Cursor) (n : Nat) (screen : ScreenBuffer) : Cursor :=
  let new_col := min (c.position.col + n) (screen.width - 1)
  c.set_position (c.position.row + 1) (new_col + 1) screen

/-- `Cursor::move_back`. -/
def Cursor.move_back (c : Cursor) (n : Nat) : Cursor :=
  { c with position := { c.position with col := c.position.col - n } }

/-- `Cursor::advance`: advance after printing; at the right edge either wrap
(clamping the row at the bottom — the source's scroll there is an
unimplemented TODO) or stick to the last column. -/
def Cursor.advance (c : Cursor) (screen : ScreenBuffer) (modes_auto_wrap : Bool) : Cursor :=
  let col1 := c.position.col + 1
  if screen.width ≤ col1 then
    if modes_auto_wrap then
      let row1 := c.position.row + 1
      if screen.height ≤ row1 then
        { c with position := { c.position with col := 0, row := screen.height - 1 } }
      else
        { c with position := { c.position with col := 0, row := row1 } }
    else
      { c with position := { c.position with col := screen.width - 1 } }
  else
    { c with position := { c.position with col := col1 } }

/-- `Cursor::carriage_return`. -/
def Cursor.carriage_return (c : Cursor) : Cursor :=
  { c with position := { c.position with col := 0 } }

/-- `Cursor::backspace`. -/
def Cursor.backspace (c : Cursor) (screen : ScreenBuffer) : Cursor :=
  if 0 < c.position.col then
    { c with position := { c.position with col := c.position.col - 1 } }
  else if 0 < c.position.row then
    { c with position := { c.position with row := c.position.row - 1,
                                           col := screen.width - 1 } }
  else c

/-- `Cursor::save_position` (push onto the saved-position stack). -/
def Cursor.save_position (c : Cursor) : Cursor :=
  { c with saved_positions := c.saved_positions ++ [c.position] }

/-- `Cursor::restore_position` (pop and re-clamp to the current screen). -/
def Cursor.restore_position (c : Cursor) (screen : ScreenBuffer) : Cursor :=
  match c.saved_positions.getLast? with
  | none => c
  | some saved =>
    { c with
      saved_positions := c.saved_positions.dropLast,
      position := { saved with
        row := min saved.row (screen.height - 1),
        col := min saved.col (screen.width - 1) } }

/-- Bounded scrollback history with FIFO eviction. -/
structure ScrollbackBuffer where
  lines : List Line
  max_lines : Nat
  current_size : Nat
deriving DecidableEq

def ScrollbackBuffer.new (max_lines : Nat) : ScrollbackBuffer :=
  { lines := [], max_lines := max_lines, current_size := 0 }

/-- `ScrollbackBuffer::push_line`: once `current_size` reaches `max_lines`,
pop the oldest line (a no-op on an empty deque) instead of growing. -/
def ScrollbackBuffer.push_line (sb : ScrollbackBuffer) (l : Line) : ScrollbackBuffer :=
  if sb.max_lines ≤ sb.current_size then
    { sb with lines := sb.lines.drop 1 ++ [l] }
  else
    { sb with current_size := sb.current_size + 1, lines := sb.lines ++ [l] }

/-- `Cursor::line_feed`: move down; past the bottom, clamp the row, move the
top line into scrollback, shift the rest up, append a blank line and mark the
screen dirty. -/
def Cursor.line_feed (c : Cursor) (screen : ScreenBuffer)
    (scrollback : ScrollbackBuffer) : Cursor × ScreenBuffer × ScrollbackBuffer :=
  let row1 := c.position.row + 1
  if screen.height ≤ row1 then
    let c1 := { c with position := { c.position with row := screen.height - 1 } }
    match screen.lines with
    | [] => (c1, screen.mark_all_dirty, scrollback)
    | top :: rest =>
      let sb := scrollback.push_line top
      let screen1 := { screen with lines := rest ++ [Line.new screen.width] }
      (c1, screen1.mark_all_dirty, sb)
  else
    ({ c with position := { c.position with row := row1 } }, screen, scrollback)

/-- Terminal mode flags and the current graphic rendition. -/
structure TerminalModes where
  insert_mode : Bool
  auto_wrap : Bool
  cursor_visible : Bool
  application_keypad : Bool
  application_cursor : Bool
  origin_mode : Bool
  current_attributes : CellAttributes
deriving DecidableEq

def TerminalModes.default : TerminalModes :=
  { insert_mode := false, auto_wrap := true, cursor_visible := true,
    application_keypad := false, application_cursor := false,
    origin_mode := false, current_attributes := CellAttributes.default }

/-- One step of the SGR parameter loop in
`TerminalModes::set_graphics_attributes`. -/
def applySgrParam (a : CellAttributes) (p : Nat) : CellAttributes :=
  if p = 0 then CellAttributes.default
  else if p = 1 then { a with bold := true }
  else if p = 2 then { a with dim := true }
  else if p = 3 then { a with italic := true }
  else if p = 4 then { a with underline := .single }
  else if p = 5 || p = 6 then { a with blink := .slow }
  else if p = 7 then { a with reverse := true }
  else if p = 8 then { a with invisible := true }
  else if p = 9 then { a with strikethrough := true }
  else if p = 21 then { a with underline := .double }
  else if p = 22 then { a with bold := false, dim := false }
  else if p = 23 then { a with italic := false }
  else if p = 24 then { a with underline := .none }
  else if p = 25 then { a with blink := .none }
  else if p = 27 then { a with reverse := false }
  else if p = 28 then { a with invisible := false }
  else if p = 29 then { a with strikethrough := false }
  else a

/-- `TerminalModes::set_graphics_attributes` (always returns `Ok`). -/
def TerminalModes.set_graphics_attributes (m : TerminalModes) (params : List Nat) :
    TerminalModes :=
  { m with current_attributes := params.foldl applySgrParam m.current_attributes }

/-- Per-column tab stops. -/
structure TabStops where
  stops : List Bool
  default_width : Nat
deriving DecidableEq

/-- `TabStops::new`: a stop every 8 columns. -/
def TabStops.new (width : Nat) : TabStops :=
  { stops := (List.range width).map (fun i => i % 8 = 0), default_width := 8 }

/-- `TabStops::next_tab_stop`: first stop strictly after `from_col`, else the
last column. -/
def TabStops.next_tab_stop (t : TabStops) (from_col : Nat) : Nat :=
  match (List.range t.stops.length).find?
      (fun col => decide (from_col + 1 ≤ col) && t.stops.getD col false) with
  | some col => col
  | none => t.stops.length - 1

/-- `Cursor::tab_forward`. -/
def Cursor.tab_forward (c : Cursor) (tabs : TabStops) (screen : ScreenBuffer) : Cursor :=
  let next_tab := tabs.next_tab_stop c.position.col
  { c with position := { c.position with col := min next_tab (screen.width - 1) } }

/-- `ScreenBuffer::write_char_at_cursor`. -/
def ScreenBuffer.write_char_at_cursor (s : ScreenBuffer) (ch : Nat) (c : Cursor)
    (modes : TerminalModes) : Except String ScreenBuffer :=
  s.write_char_at c.position.row c.position.col ch modes.current_attributes

/-- The pane state driven by terminal commands (identity, PTY, configuration,
events and statistics of the source `Pane` are outside the claims and
omitted). -/
structure Pane where
  terminal : Terminal
  screen_buffer : ScreenBuffer
  scrollback : ScrollbackBuffer
  cursor : Cursor
  modes : TerminalModes
  tabs : TabStops
deriving DecidableEq

/-- `Pane::new` with an initial size and scrollback capacity (the defaults of
`PaneConfig` are 80×24 and 10000 scrollback lines). -/
def Pane.new (width height scrollback_lines : Nat) : Pane :=
  { terminal := Terminal.new,
    screen_buffer := ScreenBuffer.new width height,
    scrollback := ScrollbackBuffer.new scrollback_lines,
    cursor := Cursor.new,
    modes := TerminalModes.default,
    tabs := TabStops.new width }

/-- `Pane::execute_terminal_command`: commands without a match arm in the
source (save/restore cursor, insert/delete lines, reset, …) fall into the
catch-all that only counts them. -/
def Pane.execute_terminal_command (p : Pane) (command : VtCommand) : Except String Pane :=
  match command with
  | .printChar ch =>
    match p.screen_buffer.write_char_at_cursor ch p.cursor p.modes with
    | .error e => .error e
    | .ok sb =>
      .ok { p with screen_buffer := sb,
                   cursor := p.cursor.advance sb p.modes.auto_wrap }
  | .cursorUp n => .ok { p with cursor := p.cursor.move_up n p.screen_buffer }
  | .cursorDown n => .ok { p with cursor := p.cursor.move_down n p.screen_buffer }
  | .cursorForward n => .ok { p with cursor := p.cursor.move_forward n p.screen_buffer }
  | .cursorBack n => .ok { p with cursor := p.cursor.move_back n }
  | .cursorPosition row col =>
    .ok { p with cursor := p.cursor.set_position row col p.screen_buffer }
  | .clearScreen t =>
    let sc := p.screen_buffer.clear_screen t p.cursor
    .ok { p with screen_buffer := sc.1, cursor := sc.2 }
  | .clearLine t => .ok { p with screen_buffer := p.screen_buffer.clear_line t p.cursor }
  | .lineFeed =>
    let r := p.cursor.line_feed p.screen_buffer p.scrollback
    .ok { p with cursor := r.1, screen_buffer := r.2.1, scrollback := r.2.2 }
  | .carriageReturn => .ok { p with cursor := p.cursor.carriage_return }
  | .tab => .ok { p with cursor := p.cursor.tab_forward p.tabs p.screen_buffer }
  | .backspace => .ok { p with cursor := p.cursor.backspace p.screen_buffer }
  | .setGraphicsRendition params =>
    .ok { p with modes := p.modes.set_graphics_attributes params }
  | _ => .ok p

/-- `Pane::handle_pty_data`: feed each byte through the terminal and execute
every produced command (statistics and events omitted). -/
def Pane.handle_pty_data (p : Pane) : List Nat → Except String Pane
  | [] => .ok p
  | b :: rest =>
    match p.terminal.process_byte b with
    | .error e => .error e
    | .ok (t, cmd) =>
      let p1 := { p with terminal := t }
      match cmd with
      | some c =>
        match p1.execute_terminal_command c with
        | .error e => .error e
        | .ok p2 => p2.handle_pty_data rest
      | none => p1.handle_pty_data rest

/-- `Pane::resize` (interface.rs): reject a zero dimension, resize the screen
buffer and rebuild the tab stops; the cursor is not touched. -/
def Pane.resize (p : Pane) (rows cols : Nat) : Except String Pane :=
  if rows = 0 ∨ cols = 0 then .error "Invalid size"
  else
    .ok { p with screen_buffer := p.screen_buffer.resize cols rows,
                 tabs := TabStops.new cols }

/-- `Pane::validate_state`: the source's own state-integrity check. -/
def Pane.validate_state (p : Pane) : Except String Unit :=
  if p.screen_buffer.height ≤ p.cursor.position.row ∨
     p.screen_buffer.width ≤ p.cursor.position.col then
    .error "Cursor position is invalid"
  else if p.screen_buffer.lines.length ≠ p.screen_buffer.height then
    .error "Screen buffer line count does not match height"
  else if p.screen_buffer.lines.any (fun l => l.cells.length ≠ p.screen_buffer.width) then
    .error "Line cell count does not match width"
  else .ok ()

/-- Cell of `p` at `(row, col)` of the visible screen, for stating concrete
results. -/
def Pane.cellAt (p : Pane) (row col : Nat) : Cell :=
  ((p.screen_buffer.lines.getD row (Line.new 0)).cells.getD col Cell.default)

/-- Fold `ScrollbackBuffer.push_line` over a list of lines. -/
def pushAll (sb : ScrollbackBuffer) (ls : List Line) : ScrollbackBuffer :=
  ls.foldl ScrollbackBuffer.push_line sb

instance {α : Type} [DecidableEq α] : DecidableEq (Except String α) := fun x y =>
  match x, y with
  | .ok a, .ok b =>
    if h : a = b then .isTrue (by rw [h]) else .isFalse (fun hc => h (Except.ok.inj hc))
  | .error a, .error b =>
    if h : a = b then .isTrue (by rw [h]) else .isFalse (fun hc => h (Except.error.inj hc))
  | .ok _, .error _ => .isFalse (fun hc => Except.noConfusion hc)
  | .error _, .ok _ => .isFalse (fun hc => Except.noConfusion hc)

/-- Reachability invariant of the parser: in the CSI states the accumulated
sequence is `ESC [` followed by parameter bytes only, so the slice that
`parse_parameters` decodes is always ASCII. -/
def parserInv (p : VtParser) : Prop :=
  match p.state_machine with
  | .escape => p.current_sequence = [27]
  | .csiEntry => p.current_sequence = [27, 91]
  | .csiParam => ∃ ps, p.current_sequence = 27 :: 91 :: ps ∧ ∀ x ∈ ps, paramByte x = true
  | _ => True

theorem utf8Valid_ascii : ∀ (l : List Nat), (∀ b ∈ l, b ≤ 127) → utf8Valid l = true := by
  intro l
  have main : ∀ (m : List Nat), (∀ b ∈ m, b ≤ 127) → utf8ValidSM 0 0 0 m = true := by
    intro m
    induction m with
    | nil => intro _; rfl
    | cons b r ih =>
      intro h
      have hb : b ≤ 127 := h b (List.mem_cons_self b r)
      show (if (0 : Nat) = 0 then _ else _) = true
      rw [if_pos rfl, if_pos hb]
      exact ih (fun x hx => h x (List.mem_cons_of_mem b hx))
  exact main l

theorem paramByte_le {b : Nat} (h : paramByte b = true) : b ≤ 127 := by
  simp only [paramByte, Bool.or_eq_true, Bool.and_eq_true, decide_eq_true_eq] at h
  omega

theorem dropLast_snoc {α : Type} : ∀ (l : List α) (a : α), (l ++ [a]).dropLast = l
  | [], _ => rfl
  | [x], a => rfl
  | x :: y :: r, a => by
    have h2 := dropLast_snoc (y :: r) a
    simp only [List.cons_append, List.dropLast_cons₂]
    exact congrArg (List.cons x) h2

theorem parse_parameters_ok (p : VtParser) (ps : List Nat) (b : Nat)
    (hseq : p.current_sequence = 27 :: 91 :: (ps ++ [b]))
    (hps : ∀ x ∈ ps, paramByte x = true) :
    ∃ q, VtParser.parse_parameters p = .ok q ∧ q.state_machine = p.state_machine ∧
         q.current_sequence = p.current_sequence := by
  have hv : utf8Valid ps = true := utf8Valid_ascii ps (fun x hx => paramByte_le (hps x hx))
  simp only [VtParser.parse_parameters, hseq]
  have hlen : ¬ ((27 :: 91 :: (ps ++ [b])).length < 3) := by
    simp [List.length_append]
  rw [if_neg hlen]
  simp only [List.drop_succ_cons, List.drop_zero, dropLast_snoc]
  rw [if_pos hv]
  exact ⟨_, rfl, rfl, rfl⟩

theorem process_byte_ok (p : VtParser) (b : Nat) (h : parserInv p) :
    ∃ pr, p.process_byte b = .ok pr ∧ parserInv pr.1 := by
  obtain ⟨st, seq, ps⟩ := p
  cases st with
  | ground =>
    simp only [VtParser.process_byte, VtParser.process_ground_state]
    split_ifs <;> exact ⟨_, rfl, by simp [parserInv]⟩
  | escape =>
    have hseq : seq = [27] := h
    subst hseq
    simp only [VtParser.process_byte, VtParser.process_escape_state]
    split_ifs <;> exact ⟨_, rfl, by simp [parserInv, *]⟩
  | csiEntry =>
    have hseq : seq = [27, 91] := h
    subst hseq
    simp only [VtParser.process_byte, VtParser.process_csi_entry_state]
    by_cases hp : paramByte b = true
    · rw [if_pos hp]
      obtain ⟨q, hq, hst, hsq⟩ := parse_parameters_ok
        { state_machine := .csiParam, current_sequence := [27, 91] ++ [b], params := ps }
        [] b rfl (by intro x hx; cases hx)
      obtain ⟨qst, qseq, qps⟩ := q
      simp only at hst hsq
      subst hst; subst hsq
      rw [hq]
      exact ⟨_, rfl, ⟨[b], rfl, by intro x hx; cases hx with
        | head => exact hp
        | tail _ hx2 => cases hx2⟩⟩
    · rw [if_neg hp]
      split_ifs <;> exact ⟨_, rfl, by simp [parserInv]⟩
  | csiParam =>
    obtain ⟨ps2, hseq, hall⟩ := h
    subst hseq
    simp only [VtParser.process_byte, VtParser.process_csi_param_state]
    by_cases hp : paramByte b = true
    · rw [if_pos hp]
      obtain ⟨q, hq, hst, hsq⟩ := parse_parameters_ok
        { state_machine := .csiParam, current_sequence := (27 :: 91 :: ps2) ++ [b], params := ps }
        ps2 b rfl hall
      obtain ⟨qst, qseq, qps⟩ := q
      simp only at hst hsq
      subst hst; subst hsq
      rw [hq]
      refine ⟨_, rfl, ⟨ps2 ++ [b], rfl, ?_⟩⟩
      intro x hx
      rcases List.mem_append.mp hx with h1 | h2
      · exact hall x h1
      · cases h2 with
        | head => exact hp
        | tail _ hx2 => cases hx2
    · rw [if_neg hp]
      split_ifs <;> exact ⟨_, rfl, by simp [parserInv]⟩
  | csiIntermediate =>
    exact ⟨_, rfl, by simp [parserInv]⟩
  | oscString =>
    simp only [VtParser.process_byte, VtParser.process_osc_string_state]
    split_ifs <;> exact ⟨_, rfl, by simp [parserInv]⟩

theorem process_bytes_ok : ∀ (bytes : List Nat) (t : Terminal), parserInv t.parser →
    ∃ r, t.process_bytes bytes = .ok r ∧ parserInv r.1.parser
  | [], t, h => ⟨(t, []), rfl, h⟩
  | b :: rest, t, h => by
    obtain ⟨⟨p1, o⟩, hpb, hinv⟩ := process_byte_ok t.parser b h
    have hstep : ∃ t1 cmd, t.process_byte b = .ok (t1, cmd) ∧ t1.parser = p1 := by
      simp only [Terminal.process_byte, hpb]
      cases o with
      | none => exact ⟨_, _, rfl, rfl⟩
      | some s => exact ⟨_, _, rfl, rfl⟩
    obtain ⟨t1, cmd, hpb2, hp1⟩ := hstep
    obtain ⟨r2, hrest, hinv2⟩ := process_bytes_ok rest t1 (by rw [hp1]; exact hinv)
    cases cmd with
    | none =>
      exact ⟨(r2.1, r2.2), by simp only [Terminal.process_bytes, hpb2, hrest], hinv2⟩
    | some c =>
      exact ⟨(r2.1, c :: r2.2), by simp only [Terminal.process_bytes, hpb2, hrest], hinv2⟩

theorem line_clear_idem (l : Line) : l.clear.clear = l.clear := by
  simp [Line.clear, List.map_map, Function.comp]

theorem mark_all_dirty_idem (d : DirtyTracker) :
    d.mark_all_dirty.mark_all_dirty = d.mark_all_dirty := by
  simp [DirtyTracker.mark_all_dirty, List.map_map, Function.comp]

theorem set_position_home (c : Cursor) (S : ScreenBuffer) :
    c.set_position 0 0 S = { c with position := { c.position with row := 0, col := 0 } } := by
  simp [Cursor.set_position, Nat.zero_min]

theorem clear_all_is_empty (cs : List Cell) :
    ((cs.map fun _ => Cell.default).all Cell.is_default) = true := by
  induction cs with
  | nil => rfl
  | cons a r ih => simp only [List.map_cons, List.all_cons, ih, Bool.and_true]; decide

theorem push_line_preserves (max : Nat) (sb : ScrollbackBuffer) (l : Line)
    (hm : sb.max_lines = max) (hsz : sb.current_size = sb.lines.length)
    (hle : sb.lines.length ≤ max) (hmax : 1 ≤ max) :
    (sb.push_line l).max_lines = max ∧
    (sb.push_line l).current_size = (sb.push_line l).lines.length ∧
    (sb.push_line l).lines.length ≤ max := by
  unfold ScrollbackBuffer.push_line
  split_ifs with hcap
  · have hlen1 : 1 ≤ sb.lines.length := by omega
    simp only [List.length_append, List.length_drop, List.length_cons, List.length_nil]
    refine ⟨hm, ?_, ?_⟩ <;> omega
  · simp only [List.length_append, List.length_cons, List.length_nil]
    refine ⟨hm, ?_, ?_⟩ <;> omega

theorem pushAll_preserves (max : Nat) (hmax : 1 ≤ max) :
    ∀ (ls : List Line) (sb : ScrollbackBuffer),
      sb.max_lines = max → sb.current_size = sb.lines.length → sb.lines.length ≤ max →
      (pushAll sb ls).max_lines = max ∧
      (pushAll sb ls).current_size = (pushAll sb ls).lines.length ∧
      (pushAll sb ls).lines.length ≤ max
  | [], sb, hm, hsz, hle => ⟨hm, hsz, hle⟩
  | l :: rest, sb, hm, hsz, hle => by
    obtain ⟨h1, h2, h3⟩ := push_line_preserves max sb l hm hsz hle hmax
    exact pushAll_preserves max hmax rest (sb.push_line l) h1 h2 h3

/-- C1: the spec claims a complete CSI sequence carries the parameter list of
the ENTIRE accumulated parameter-byte string, e.g. that `"\x1b[5;10H"` yields
a cursor-position command with parameters `[5, 10]`.  The code instead
re-parses the parameters one byte too early each time (`parse_parameters`
drops the last byte of the slice while the final byte is not yet in the
buffer, and `build_csi_sequence` reuses the stale list), so at the failing
input `"\x1b[5;10H"` (bytes 27 91 53 59 49 48 72) the emitted command is
`CursorPosition 5 1`, not `CursorPosition 5 10`. -/
theorem c1_csi_last_param_byte_dropped :
    (Terminal.process_bytes Terminal.new [27, 91, 53, 59, 49, 48, 72]).map (fun r => r.2)
      = .ok [VtCommand.cursorPosition 5 1] := by decide

/-- C2: for every finite byte sequence and every reachable starting parser
state (the state after any byte prefix), `Terminal::process_bytes` returns
`Ok`; in particular the `"Invalid UTF-8 in CSI parameters"` branch is
unreachable because the decoded slice only ever holds ASCII digit and `;`
bytes. -/
theorem c2_process_bytes_never_fails (bs1 bs2 : List Nat) :
    isOkE (Terminal.process_bytes Terminal.new (bs1 ++ bs2)) = true := by
  obtain ⟨r, hr, -⟩ := process_bytes_ok (bs1 ++ bs2) Terminal.new trivial
  rw [hr]
  rfl

/-- C3: the spec claims `"\x1b[1mX\x1b[0mY"` leaves the `X` cell with
`bold == true` and the `Y` cell with `bold == false`.  Because the parser
drops the last parameter byte (see C1), both SGR commands reach
`set_graphics_attributes` with an empty parameter list; at the failing input
(bytes 27 91 49 109 88 27 91 48 109 89) the cell holding `X` (code point 88)
has `bold == false`. -/
theorem c3_sgr_bold_scenario_eval :
    ((Pane.new 80 24 10000).handle_pty_data [27, 91, 49, 109, 88, 27, 91, 48, 109, 89]).map
        (fun p => ((p.cellAt 0 0).character, (p.cellAt 0 0).attributes.bold,
                   (p.cellAt 0 1).character, (p.cellAt 0 1).attributes.bold))
      = .ok (88, false, 89, false) := by decide

/-- C4: the spec claims ESC 7 / ESC 8 round-trip the cursor position through
the full pipeline.  `execute_terminal_command` has no arms for `SaveCursor`
and `RestoreCursor` (they fall into the unimplemented catch-all), so at the
failing input `"A\x1b7B\x1b8"` (bytes 65 27 55 66 27 56) the cursor ends at
column 2 — the position after the second move — with an empty saved-position
stack, instead of back at column 1. -/
theorem c4_save_restore_commands_dropped :
    ((Pane.new 80 24 10000).handle_pty_data [65, 27, 55, 66, 27, 56]).map
        (fun p => (p.cursor.position.row, p.cursor.position.col,
                   p.cursor.saved_positions.length))
      = .ok (0, 2, 0) := by decide

/-- C5: the spec claims that printing with auto-wrap at the last column of the
bottom row triggers a scroll (top line into scrollback, lines shift, blank
bottom line).  `Cursor::advance` only clamps the row (its scroll is a TODO in
the source), so on a 2×2 pane with the cursor at (1,1) a printed character
leaves the scrollback empty, the cursor at (1,0), and the printed character
still on the unshifted bottom row. -/
theorem c5_wrap_at_bottom_does_not_scroll :
    (Pane.execute_terminal_command
        { Pane.new 2 2 5 with
          cursor := { Cursor.new with
            position := { row := 1, col := 1, origin_mode := false } } }
        (.printChar 65)).map
      (fun p => (p.scrollback.lines.length, p.cursor.position.row,
                 p.cursor.position.col, (p.cellAt 1 1).character))
      = .ok (0, 1, 0, 65) := by decide

/-- C6 counterexample: the claim says `height + 1 = 25` line feeds into a
fresh 80×24 pane leave `scrollback.len() == 1`; running them leaves 2 lines
in the scrollback (the cursor starts at row 0, so line feeds 24 and 25 both
scroll). -/
theorem c6_height_plus_one_linefeeds_counterexample :
    ((Pane.new 80 24 10000).handle_pty_data (List.replicate 25 10)).map
        (fun p => p.scrollback.lines.length) ≠ .ok 1 := by decide

/-- C6 amended: feeding `height + 1 = 25` line feeds into a fresh, empty
80×24 pane leaves `scrollback.len() == 2`, `screen.lines.len() == 24`, and
every screen line blank. -/
theorem c6_height_plus_one_linefeeds_amended :
    ((Pane.new 80 24 10000).handle_pty_data (List.replicate 25 10)).map
        (fun p => (p.scrollback.lines.length, p.screen_buffer.lines.length,
                   p.screen_buffer.lines.all Line.is_empty))
      = .ok (2, 24, true) := by decide

/-- C7 counterexample: the claim includes capacity 0, but pushing one line
into a fresh `ScrollbackBuffer::new(0)` leaves one stored line, violating
`scrollback.len() <= max_lines` (`push_line` pops from the empty deque — a
no-op — and then pushes unconditionally). -/
theorem c7_zero_capacity_counterexample :
    ¬ (((ScrollbackBuffer.new 0).push_line (Line.new 1)).lines.length ≤
        (ScrollbackBuffer.new 0).max_lines) := by decide

/-- C7 amended: for every capacity `max_lines ≥ 1` and every sequence of
`push_line` operations from a fresh buffer, `scrollback.len() ≤ max_lines`
holds after each operation, and once at capacity each further push drops the
oldest line first (FIFO). -/
theorem c7_capacity_bound_amended (max : Nat) (hmax : 1 ≤ max) (ls : List Line) (l : Line) :
    (pushAll (ScrollbackBuffer.new max) ls).lines.length ≤ max ∧
    (max ≤ (pushAll (ScrollbackBuffer.new max) ls).current_size →
      ((pushAll (ScrollbackBuffer.new max) ls).push_line l).lines
        = (pushAll (ScrollbackBuffer.new max) ls).lines.drop 1 ++ [l]) := by
  obtain ⟨h1, h2, h3⟩ := pushAll_preserves max hmax ls (ScrollbackBuffer.new max)
    rfl rfl (by simp [ScrollbackBuffer.new])
  refine ⟨h3, fun hcap => ?_⟩
  unfold ScrollbackBuffer.push_line
  rw [if_pos (by omega)]

/-- C7 witness: the amended bound and FIFO equation hold at capacity 1 after
two pushes. -/
theorem c7_capacity_bound_amended_witness :
    (1 ≤ 1) ∧
    ((pushAll (ScrollbackBuffer.new 1) [Line.new 2, Line.new 2]).lines.length ≤ 1 ∧
     (1 ≤ (pushAll (ScrollbackBuffer.new 1) [Line.new 2, Line.new 2]).current_size →
       ((pushAll (ScrollbackBuffer.new 1) [Line.new 2, Line.new 2]).push_line
           (Line.new 2)).lines
         = (pushAll (ScrollbackBuffer.new 1) [Line.new 2, Line.new 2]).lines.drop 1
             ++ [Line.new 2])) :=
  ⟨by decide, c7_capacity_bound_amended 1 (by decide) [Line.new 2, Line.new 2] (Line.new 2)⟩

/-- C8: the spec claims every successful `resize(w, h)` re-clamps the cursor
into the new bounds.  `Pane::resize` never touches the cursor: after 10 line
feeds (cursor row 10) and `resize(1, 1)` the cursor row is still 10 while the
screen height is 1, and the pane's own `validate_state` rejects the resulting
state. -/
theorem c8_resize_does_not_reclamp_cursor :
    (((Pane.new 80 24 10000).handle_pty_data (List.replicate 10 10)).bind
        (fun p => p.resize 1 1)).map
      (fun q => (q.cursor.position.row, q.screen_buffer.height, isOkE q.validate_state))
      = .ok (10, 1, false) := by decide

/-- C9: `ClearScreen(All)` is idempotent on the (screen buffer, cursor)
state: applying `clear_screen(All)` twice yields exactly the state of
applying it once — all cells default, the all-dirty flag set, and the cursor
in the same position either way. -/
theorem c9_clear_screen_all_idempotent (s : ScreenBuffer) (c : Cursor) :
    ScreenBuffer.clear_screen (s.clear_screen .all c).1 .all (s.clear_screen .all c).2
      = s.clear_screen .all c ∧
    ((s.clear_screen .all c).1.lines.all Line.is_empty) = true ∧
    (s.clear_screen .all c).1.dirty_regions.all_dirty = true := by
  refine ⟨?_, ?_, ?_⟩
  · simp only [ScreenBuffer.clear_screen, ScreenBuffer.mark_all_dirty, set_position_home]
    simp [mark_all_dirty_idem, List.map_map, Function.comp, line_clear_idem,
      DirtyTracker.mark_all_dirty]
  · simp only [ScreenBuffer.clear_screen, ScreenBuffer.mark_all_dirty]
    simp only [List.all_eq_true]
    intro l hl
    simp only [List.mem_map] at hl
    obtain ⟨l0, -, rfl⟩ := hl
    simpa [Line.is_empty, Line.clear] using clear_all_is_empty l0.cells
  · rfl

/-- C10: `ClearScreen(All)` also moves the cursor home to (0, 0), while
`ClearScreen(ToEnd)` and `ClearScreen(ToBeginning)` leave the cursor
unchanged (stated for in-bounds cursors, where the source's row slicing
cannot panic). -/
theorem c10_clear_screen_cursor_effects (s : ScreenBuffer) (c : Cursor)
    (h : c.position.row < s.lines.length) :
    (s.clear_screen .all c).2.position.row = 0 ∧
    (s.clear_screen .all c).2.position.col = 0 ∧
    (s.clear_screen .toEnd c).2 = c ∧
    (s.clear_screen .toBeginning c).2 = c := by
  refine ⟨?_, ?_, rfl, rfl⟩ <;>
    simp [ScreenBuffer.clear_screen, set_position_home]

/-- C10 witness: the cursor effects at a fresh 2×2 buffer with the cursor at
the origin. -/
theorem c10_clear_screen_cursor_effects_witness :
    (Cursor.new.position.row < (ScreenBuffer.new 2 2).lines.length) ∧
    (((ScreenBuffer.new 2 2).clear_screen .all Cursor.new).2.position.row = 0 ∧
     ((ScreenBuffer.new 2 2).clear_screen .all Cursor.new).2.position.col = 0 ∧
     ((ScreenBuffer.new 2 2).clear_screen .toEnd Cursor.new).2 = Cursor.new ∧
     ((ScreenBuffer.new 2 2).clear_screen .toBeginning Cursor.new).2 = Cursor.new) :=
  ⟨by decide, c10_clear_screen_cursor_effects (ScreenBuffer.new 2 2) Cursor.new (by decide)⟩
